import Mathlib

/-
Verification development for the AzureTTSTest repository
(src/tts_speech.py), a thin wrapper around a cloud text-to-speech
service.  The Python source is shallowly embedded below: optional
string parameters become `Option String`, Python truthiness of such
values becomes `truthy`, the external SDK synthesizer becomes an
explicit `dispatch` function returning `Except String SpeechResult`
(`Except.error e` models a raised exception with message `e`), and
`print` calls are collected into a list of output lines.
-/

namespace AzureTTSTest

/-- Truthiness of a Python `Optional[str]` value: `None` and the empty
string are falsy, every other string is truthy.  This is the test the
source applies with `if rate:`, `if output_file:`, `if not speech_key:`
and so on. -/
def truthy : Option String → Bool
  | none => false
  | some s => !(s == "")

/-- One optional prosody attribute of `_create_ssml` (lines 121-126 of
src/tts_speech.py): when the parameter is truthy, the singleton list
holding its `name="value"` pair, otherwise the empty list. -/
def optAttr (attrName : String) (v : Option String) : List String :=
  match v with
  | none => []
  | some s => if s == "" then [] else [attrName ++ "=\"" ++ s ++ "\""]

/-- Embedding of the `prosody_attrs` list built by
`AzureTTS._create_ssml` (lines 119-126): the three conditional appends,
in source order rate, pitch, volume. -/
def prosody_attrs (rate pitch volume : Option String) : List String :=
  optAttr "rate" rate ++ optAttr "pitch" pitch ++ optAttr "volume" volume

/-- Embedding of `AzureTTS._create_ssml` (lines 98-141): builds the
prosody-wrapped (or raw) inner text, then substitutes it together with
`voice_name` into the fixed f-string template of lines 135-139. -/
def create_ssml (text voice_name : String) (rate pitch volume : Option String) : String :=
  "<speak version=\"1.0\" xmlns=\"http://www.w3.org/2001/10/synthesis\" xml:lang=\"ja-JP\">\n    <voice name=\""
    ++ voice_name ++ "\">\n        "
    ++ (if prosody_attrs rate pitch volume = [] then text
        else "<prosody " ++ String.intercalate " " (prosody_attrs rate pitch volume)
          ++ ">" ++ text ++ "</prosody>")
    ++ "\n    </voice>\n</speak>"

/-- Reason code carried by a synthesis result of the speech SDK.  The
source compares against `SynthesizingAudioCompleted` and `Canceled`;
every other SDK reason is modelled by `Other` with a tag. -/
inductive ResultReason where
  | SynthesizingAudioCompleted : ResultReason
  | Canceled : ResultReason
  | Other : String → ResultReason
deriving DecidableEq, Repr

/-- Cancellation details of a synthesis result (`result.cancellation_details`):
a cancellation reason and an error-detail string, empty when absent
(the source tests it with Python truthiness at line 73). -/
structure CancellationDetails where
  reason : String
  error_details : String
deriving DecidableEq, Repr

/-- A synthesis result returned by the SDK `.get()` call: its reason
code and its cancellation details. -/
structure SpeechResult where
  reason : ResultReason
  cancellation_details : CancellationDetails
deriving DecidableEq, Repr

/-- The external synthesis call issued inside the `try` block of
`text_to_speech`: either `speak_text_async(text)` on the plain path or
`speak_ssml_async(ssml)` on the markup path. -/
inductive SynthCall where
  | speakText : String → SynthCall
  | speakSsml : String → SynthCall
deriving DecidableEq, Repr

/-- Per-instance state of `AzureTTS`: the `SpeechConfig` built in
`__init__` (lines 16-19) from the subscription key and region, plus the
`speech_synthesis_voice_name` property that `text_to_speech` assigns at
line 44 (unset right after construction). -/
structure SpeechConfig where
  subscription : String
  region : String
  speech_synthesis_voice_name : Option String
deriving DecidableEq, Repr

/-- Embedding of `AzureTTS.__init__` (lines 8-19). -/
def AzureTTS.init (speech_key service_region : String) : SpeechConfig :=
  { subscription := speech_key
  , region := service_region
  , speech_synthesis_voice_name := none }

/-- Observable outcome of one `text_to_speech` call: the instance state
after the call, the boolean return value, the lines printed, and the
external synthesis calls issued. -/
structure TTSRun where
  cfg : SpeechConfig
  retval : Bool
  printed : List String
  calls : List SynthCall
deriving DecidableEq, Repr

/-- The synthesis call `text_to_speech` chooses at lines 56-62: the
markup call on `_create_ssml`'s output when `rate or pitch or volume`
is truthy, the plain-text call otherwise. -/
def chosen_call (text voice_name : String) (rate pitch volume : Option String) : SynthCall :=
  if truthy rate || truthy pitch || truthy volume then
    SynthCall.speakSsml (create_ssml text voice_name rate pitch volume)
  else
    SynthCall.speakText text

/-- Embedding of `AzureTTS.text_to_speech` (lines 21-80).  The call
first assigns the voice name onto the instance's `speech_config`
(line 44), picks the synthesis call (lines 56-62), and hands it to
`dispatch`, which stands for the external SDK round trip:
`Except.error e` models an exception with message `e` raised during
dispatch, caught by the `except` clause of lines 76-78; `Except.ok r`
models a normal result `r`, interpreted by lines 64-75 and falling
through to `return False` at line 80 on any other reason code. -/
def text_to_speech (cfg : SpeechConfig) (text voice_name : String)
    (output_file rate pitch volume : Option String)
    (dispatch : SynthCall → Except String SpeechResult) : TTSRun :=
  let cfg' : SpeechConfig := { cfg with speech_synthesis_voice_name := some voice_name }
  let call := chosen_call text voice_name rate pitch volume
  match dispatch call with
  | Except.error e =>
      { cfg := cfg'
      , retval := false
      , printed := ["エラーが発生しました: " ++ e]
      , calls := [call] }
  | Except.ok result =>
      if result.reason = ResultReason.SynthesizingAudioCompleted then
        if truthy output_file then
          { cfg := cfg'
          , retval := true
          , printed := ["音声ファイルが保存されました: " ++ output_file.getD ""]
          , calls := [call] }
        else
          { cfg := cfg'
          , retval := true
          , printed := ["音声の再生が完了しました"]
          , calls := [call] }
      else if result.reason = ResultReason.Canceled then
        let cd := result.cancellation_details
        { cfg := cfg'
        , retval := false
        , printed :=
            ["音声合成がキャンセルされました: " ++ cd.reason] ++
              (if cd.error_details == "" then [] else ["エラー詳細: " ++ cd.error_details])
        , calls := [call] }
      else
        { cfg := cfg'
        , retval := false
        , printed := []
        , calls := [call] }

/-- Reason code of the voice-catalog result; the source compares
against `VoicesListRetrieved` (line 92); every other reason is
modelled by `Other` with a tag. -/
inductive VoicesReason where
  | VoicesListRetrieved : VoicesReason
  | Other : String → VoicesReason
deriving DecidableEq, Repr

/-- Result of the SDK `get_voices_async().get()` call: a reason code
and the list of voice descriptors (modelled as strings). -/
structure VoicesResult where
  reason : VoicesReason
  voices : List String
deriving DecidableEq, Repr

/-- Embedding of `AzureTTS.get_available_voices` (lines 82-96), as a
function of the remote result: returns the list of voices and the
lines printed. -/
def get_available_voices (voices_result : VoicesResult) : List String × List String :=
  if voices_result.reason = VoicesReason.VoicesListRetrieved then
    (voices_result.voices, [])
  else
    ([], ["音声一覧の取得に失敗しました"])

/-- Observable outcome of the `main` entry point (lines 144-173):
the lines `main` itself prints, the constructed client's key and
region (`none` when no client is built), and the number of
`text_to_speech` invocations it performs. -/
structure MainRun where
  printed : List String
  client : Option (String × String)
  synthesis_calls : Nat
deriving DecidableEq, Repr

/-- Embedding of `main` (lines 144-173) over an environment mapping
variable names to their values.  `os.getenv('AZURE_SPEECH_KEY')` reads
that exact variable; `os.getenv('AZURE_SPEECH_REGION', 'japaneast')`
falls back to the default only when the variable is unset.  A falsy
key prints the guidance message and returns before building the
client; otherwise the client is built and three synthesis calls are
made (lines 165, 170, 173). -/
def main (env : String → Option String) : MainRun :=
  let speech_key := env "AZURE_SPEECH_KEY"
  let service_region := (env "AZURE_SPEECH_REGION").getD "japaneast"
  if !(truthy speech_key) then
    { printed := ["AZURE_SPEECH_KEY環境変数を設定してください"]
    , client := none
    , synthesis_calls := 0 }
  else
    { printed := ["男性音声で再生します...", "複数のパラメータを組み合わせて再生します..."]
    , client := some (speech_key.getD "", service_region)
    , synthesis_calls := 3 }

/-- Specification-side attribute list, written from the spec's words
for the refinement comparison of the prosody attributes: "the supplied
parameters as attribute=\"value\" pairs ... in the fixed order rate,
pitch, volume, with absent parameters contributing no attribute at
all", where a parameter supplied as the empty string counts as absent
at the public interface. -/
def spec_prosody_attrs (rate pitch volume : Option String) : List String :=
  [("rate", rate), ("pitch", pitch), ("volume", volume)].filterMap
    (fun nv =>
      match nv.2 with
      | none => none
      | some s => if s == "" then none else some (nv.1 ++ "=\"" ++ s ++ "\""))

/-- An environment that sets `SPEECH_KEY` (the variable the spec
names) but leaves `AZURE_SPEECH_KEY` (the variable the code reads)
unset. -/
def envSpeechKeyOnly : String → Option String :=
  fun nm => if nm = "SPEECH_KEY" then some "secret" else none

/-- An environment that sets only `AZURE_SPEECH_KEY`. -/
def envAzureKeyOnly : String → Option String :=
  fun nm => if nm = "AZURE_SPEECH_KEY" then some "secret" else none

/-- The empty environment: no variable is set. -/
def envEmpty : String → Option String := fun _ => none

/-! ## Helper lemmas -/

/-- Every branch of `text_to_speech` records exactly the one synthesis
call chosen at lines 56-62. -/
theorem text_to_speech_calls_eq (cfg : SpeechConfig) (text voice_name : String)
    (output_file rate pitch volume : Option String)
    (dispatch : SynthCall → Except String SpeechResult) :
    (text_to_speech cfg text voice_name output_file rate pitch volume dispatch).calls =
      [chosen_call text voice_name rate pitch volume] := by
  unfold text_to_speech
  rcases h : dispatch (chosen_call text voice_name rate pitch volume) with e | result
  · simp [h]
  · simp only [h]
    split_ifs <;> rfl

/-- An `optAttr` block contributes nothing exactly when its parameter
is falsy. -/
theorem optAttr_eq_nil_iff (n : String) (v : Option String) :
    optAttr n v = [] ↔ truthy v = false := by
  cases v with
  | none => simp [optAttr, truthy]
  | some s => by_cases h : s == "" <;> simp [optAttr, truthy, h]

/-- The prosody attribute list is empty exactly when all three
parameters are falsy. -/
theorem prosody_attrs_eq_nil_iff (rate pitch volume : Option String) :
    prosody_attrs rate pitch volume = [] ↔
      (truthy rate || truthy pitch || truthy volume) = false := by
  simp [prosody_attrs, optAttr_eq_nil_iff]
  tauto

/-! ## Theorems -/

/-- C5: for rate="1.5", pitch="+50Hz", volume="loud", text="hello",
voiceName="v1", the markup output of `_create_ssml` is exactly the
expected document `<speak version="1.0"
xmlns="http://www.w3.org/2001/10/synthesis" xml:lang="ja-JP"><voice
name="v1"><prosody rate="1.5" pitch="+50Hz"
volume="loud">hello</prosody></voice></speak>`, with the source's
indentation whitespace, hence equal to the spec's string modulo
whitespace. -/
theorem create_ssml_roundtrip_example :
    create_ssml "hello" "v1" (some "1.5") (some "+50Hz") (some "loud") =
      "<speak version=\"1.0\" xmlns=\"http://www.w3.org/2001/10/synthesis\" xml:lang=\"ja-JP\">\n    <voice name=\"v1\">\n        <prosody rate=\"1.5\" pitch=\"+50Hz\" volume=\"loud\">hello</prosody>\n    </voice>\n</speak>" := by
  rfl

/-- C7: whenever the remote voice-catalog result's reason is not
`VoicesListRetrieved`, `get_available_voices` returns the empty list
and prints the failure notice (and, being a total function of the
result, does not raise). -/
theorem get_available_voices_failure (res : VoicesResult)
    (h : res.reason ≠ VoicesReason.VoicesListRetrieved) :
    get_available_voices res = ([], ["音声一覧の取得に失敗しました"]) := by
  simp [get_available_voices, h]

/-- Witness for C7 at the concrete non-success reason `Other "err"`. -/
theorem get_available_voices_failure_witness :
    get_available_voices ⟨VoicesReason.Other "err", ["a-voice"]⟩ =
      ([], ["音声一覧の取得に失敗しました"]) :=
  get_available_voices_failure ⟨VoicesReason.Other "err", ["a-voice"]⟩ (by decide)

/-- C8: for every input, the document `_create_ssml` generates is the
hard-coded root element declaring version "1.0" and xml:lang "ja-JP"
(a fixed literal, independent of `voice_name`), containing a voice
element naming `voice_name`, containing the possibly prosody-wrapped
inner content. -/
theorem create_ssml_root_structure (text voice_name : String)
    (rate pitch volume : Option String) :
    ∃ inner : String,
      create_ssml text voice_name rate pitch volume =
        "<speak version=\"1.0\" xmlns=\"http://www.w3.org/2001/10/synthesis\" xml:lang=\"ja-JP\">\n    <voice name=\""
          ++ voice_name ++ "\">\n        " ++ inner ++ "\n    </voice>\n</speak>" := by
  refine ⟨?_, ?_⟩
  · exact
      if prosody_attrs rate pitch volume = [] then text
      else "<prosody " ++ String.intercalate " " (prosody_attrs rate pitch volume)
        ++ ">" ++ text ++ "</prosody>"
  · rfl

/-- C9 counterexample: the claim that a `text_to_speech` call leaves
the instance's configuration unchanged is false: starting from a
freshly initialised client, one call with voice name
"ja-JP-KeitaNeural" mutates `speech_config.speech_synthesis_voice_name`
(line 44 of the source), so the post-call configuration differs from
the pre-call one. -/
theorem text_to_speech_mutates_config :
    (text_to_speech (AzureTTS.init "key" "japaneast") "hi" "ja-JP-KeitaNeural"
        none none none none (fun _ => Except.error "offline")).cfg ≠
      AzureTTS.init "key" "japaneast" := by
  decide

/-- C9 amended: each `text_to_speech` call leaves the credential and
region of the instance's configuration unchanged, but sets its
`speech_synthesis_voice_name` to the call's voice name; this is the
only instance state a call modifies. -/
theorem text_to_speech_config_frame (cfg : SpeechConfig) (text voice_name : String)
    (output_file rate pitch volume : Option String)
    (dispatch : SynthCall → Except String SpeechResult) :
    (text_to_speech cfg text voice_name output_file rate pitch volume dispatch).cfg =
      { cfg with speech_synthesis_voice_name := some voice_name } := by
  unfold text_to_speech
  rcases h : dispatch (chosen_call text voice_name rate pitch volume) with e | result
  · simp [h]
  · simp only [h]
    split_ifs <;> rfl

/-- C1: a `text_to_speech` call takes the prosody-wrapped markup path
(dispatching `speak_ssml_async` on `_create_ssml`'s output) if and
only if at least one of rate, pitch, volume is present (truthy: a
non-empty string, per the source's `if rate or pitch or volume`);
when none is present the plain-text call is dispatched, and no markup
call — hence no invocation of the markup builder — occurs. -/
theorem text_to_speech_path_selection (cfg : SpeechConfig) (text voice_name : String)
    (output_file rate pitch volume : Option String)
    (dispatch : SynthCall → Except String SpeechResult) :
    ((truthy rate || truthy pitch || truthy volume) = true ↔
      (text_to_speech cfg text voice_name output_file rate pitch volume dispatch).calls =
        [SynthCall.speakSsml (create_ssml text voice_name rate pitch volume)]) ∧
    ((truthy rate || truthy pitch || truthy volume) = false →
      (text_to_speech cfg text voice_name output_file rate pitch volume dispatch).calls =
        [SynthCall.speakText text]) := by
  have hc := text_to_speech_calls_eq cfg text voice_name output_file rate pitch volume dispatch
  by_cases h : (truthy rate || truthy pitch || truthy volume) = true
  · refine ⟨⟨fun _ => ?_, fun _ => h⟩, fun hf => ?_⟩
    · rw [hc]
      simp [chosen_call, h]
    · rw [hf] at h
      exact absurd h (by decide)
  · have hf : (truthy rate || truthy pitch || truthy volume) = false := by
      revert h
      cases truthy rate || truthy pitch || truthy volume <;> simp
    refine ⟨⟨fun ht => absurd ht h, fun hcalls => ?_⟩, fun _ => ?_⟩
    · rw [hc] at hcalls
      simp [chosen_call, hf] at hcalls
    · rw [hc]
      simp [chosen_call, hf]

/-- Witness for C1: with no prosody parameter the plain-text call is
dispatched, and with rate "1.5" the markup call is dispatched. -/
theorem text_to_speech_path_selection_witness :
    (text_to_speech (AzureTTS.init "k" "r") "hi" "v" none none none none
        (fun _ => Except.error "offline")).calls = [SynthCall.speakText "hi"] ∧
    (text_to_speech (AzureTTS.init "k" "r") "hi" "v" none (some "1.5") none none
        (fun _ => Except.error "offline")).calls =
      [SynthCall.speakSsml (create_ssml "hi" "v" (some "1.5") none none)] :=
  ⟨(text_to_speech_path_selection (AzureTTS.init "k" "r") "hi" "v" none none none none
      (fun _ => Except.error "offline")).2 (by decide),
   (text_to_speech_path_selection (AzureTTS.init "k" "r") "hi" "v" none (some "1.5") none none
      (fun _ => Except.error "offline")).1.mp (by decide)⟩

/-- C2: when at least one prosody parameter is supplied (truthy), the
attribute list the source builds coincides with the spec-side list —
exactly the supplied parameters as attribute="value" pairs, in the
fixed order rate, pitch, volume, absent parameters contributing
nothing — and the markup contains a prosody element carrying exactly
those pairs, space-separated. -/
theorem create_ssml_prosody_attributes (text voice_name : String)
    (rate pitch volume : Option String)
    (h : (truthy rate || truthy pitch || truthy volume) = true) :
    prosody_attrs rate pitch volume = spec_prosody_attrs rate pitch volume ∧
    ∃ pre post,
      create_ssml text voice_name rate pitch volume =
        pre ++ ("<prosody " ++ String.intercalate " " (spec_prosody_attrs rate pitch volume)
          ++ ">" ++ text ++ "</prosody>") ++ post := by
  have hattr : prosody_attrs rate pitch volume = spec_prosody_attrs rate pitch volume := by
    rcases rate with _ | r <;> rcases pitch with _ | p <;> rcases volume with _ | v <;>
      simp only [prosody_attrs, optAttr, spec_prosody_attrs, List.filterMap_cons,
        List.filterMap_nil] <;>
      (try split_ifs) <;> simp_all
  have hne : ¬ prosody_attrs rate pitch volume = [] := by
    simp [prosody_attrs_eq_nil_iff, h]
  refine ⟨hattr, "<speak version=\"1.0\" xmlns=\"http://www.w3.org/2001/10/synthesis\" xml:lang=\"ja-JP\">\n    <voice name=\""
    ++ voice_name ++ "\">\n        ", "\n    </voice>\n</speak>", ?_⟩
  rw [← hattr]
  unfold create_ssml
  rw [if_neg hne]

/-- Witness for C2 at the single supplied parameter pitch="+50Hz". -/
theorem create_ssml_prosody_attributes_witness :
    prosody_attrs none (some "+50Hz") none = spec_prosody_attrs none (some "+50Hz") none ∧
    ∃ pre post,
      create_ssml "hello" "v1" none (some "+50Hz") none =
        pre ++ ("<prosody " ++ String.intercalate " " (spec_prosody_attrs none (some "+50Hz") none)
          ++ ">" ++ "hello" ++ "</prosody>") ++ post :=
  create_ssml_prosody_attributes "hello" "v1" none (some "+50Hz") none (by decide)

/-- C3: `text_to_speech` converts failures to a normal `False` return
(it is a total function, so no exception escapes): when the dispatch
raises (modelled by `Except.error e`), the call returns `false` and
reports the exception's message; when the result's reason is neither
`SynthesizingAudioCompleted` nor `Canceled`, the call likewise
returns `false` (the fall-through `return False` of line 80). -/
theorem text_to_speech_failure_handling (cfg : SpeechConfig) (text voice_name : String)
    (output_file rate pitch volume : Option String)
    (dispatch : SynthCall → Except String SpeechResult) :
    (∀ e, dispatch (chosen_call text voice_name rate pitch volume) = Except.error e →
      (text_to_speech cfg text voice_name output_file rate pitch volume dispatch).retval = false ∧
      (text_to_speech cfg text voice_name output_file rate pitch volume dispatch).printed =
        ["エラーが発生しました: " ++ e]) ∧
    (∀ res, dispatch (chosen_call text voice_name rate pitch volume) = Except.ok res →
      res.reason ≠ ResultReason.SynthesizingAudioCompleted →
      res.reason ≠ ResultReason.Canceled →
      (text_to_speech cfg text voice_name output_file rate pitch volume dispatch).retval =
        false) := by
  constructor
  · intro e he
    constructor <;> simp [text_to_speech, he]
  · intro res hres h1 h2
    simp [text_to_speech, hres, h1, h2]

/-- Witness for C3: a dispatch that raises "boom" yields `false` with
the error message printed, and a dispatch returning the unrecognized
reason `Other "SynthesizingAudioStarted"` yields `false`. -/
theorem text_to_speech_failure_handling_witness :
    ((text_to_speech (AzureTTS.init "k" "r") "hi" "v" none none none none
        (fun _ => Except.error "boom")).retval = false ∧
      (text_to_speech (AzureTTS.init "k" "r") "hi" "v" none none none none
        (fun _ => Except.error "boom")).printed = ["エラーが発生しました: " ++ "boom"]) ∧
    (text_to_speech (AzureTTS.init "k" "r") "hi" "v" none none none none
        (fun _ => Except.ok ⟨ResultReason.Other "SynthesizingAudioStarted", ⟨"", ""⟩⟩)).retval =
      false :=
  ⟨(text_to_speech_failure_handling (AzureTTS.init "k" "r") "hi" "v" none none none none
      (fun _ => Except.error "boom")).1 "boom" rfl,
   (text_to_speech_failure_handling (AzureTTS.init "k" "r") "hi" "v" none none none none
      (fun _ => Except.ok ⟨ResultReason.Other "SynthesizingAudioStarted", ⟨"", ""⟩⟩)).2
      ⟨ResultReason.Other "SynthesizingAudioStarted", ⟨"", ""⟩⟩ rfl (by decide) (by decide)⟩

/-- C4: when the dispatched result's reason is
`SynthesizingAudioCompleted`, `text_to_speech` returns `true` and
describes the outcome by the output file path when one was given and
by speaker playback otherwise; when the reason is `Canceled`, it
returns `false`, reports the cancellation reason, and reports the
error detail exactly when one is present. -/
theorem text_to_speech_result_mapping (cfg : SpeechConfig) (text voice_name : String)
    (output_file rate pitch volume : Option String)
    (dispatch : SynthCall → Except String SpeechResult) (res : SpeechResult)
    (h : dispatch (chosen_call text voice_name rate pitch volume) = Except.ok res) :
    (res.reason = ResultReason.SynthesizingAudioCompleted →
      (text_to_speech cfg text voice_name output_file rate pitch volume dispatch).retval = true ∧
      (text_to_speech cfg text voice_name output_file rate pitch volume dispatch).printed =
        (if truthy output_file then ["音声ファイルが保存されました: " ++ output_file.getD ""]
         else ["音声の再生が完了しました"])) ∧
    (res.reason = ResultReason.Canceled →
      (text_to_speech cfg text voice_name output_file rate pitch volume dispatch).retval = false ∧
      (text_to_speech cfg text voice_name output_file rate pitch volume dispatch).printed =
        ["音声合成がキャンセルされました: " ++ res.cancellation_details.reason] ++
          (if res.cancellation_details.error_details == "" then []
           else ["エラー詳細: " ++ res.cancellation_details.error_details])) := by
  constructor
  · intro hr
    constructor
    · by_cases ho : truthy output_file <;> simp [text_to_speech, h, hr, ho]
    · by_cases ho : truthy output_file <;> simp [text_to_speech, h, hr, ho]
  · intro hr
    constructor
    · simp [text_to_speech, h, hr]
    · by_cases hd : res.cancellation_details.error_details = "" <;>
        simp [text_to_speech, h, hr, hd]

/-- Witness for C4: a completed result with output file "out.wav"
maps to `true` with the file-path message, and a canceled result with
reason "Error" and detail "quota exceeded" maps to `false` with the
cancellation messages. -/
theorem text_to_speech_result_mapping_witness :
    ((text_to_speech (AzureTTS.init "k" "r") "hi" "v" (some "out.wav") none none none
        (fun _ => Except.ok ⟨ResultReason.SynthesizingAudioCompleted, ⟨"", ""⟩⟩)).retval = true ∧
      (text_to_speech (AzureTTS.init "k" "r") "hi" "v" (some "out.wav") none none none
        (fun _ => Except.ok ⟨ResultReason.SynthesizingAudioCompleted, ⟨"", ""⟩⟩)).printed =
        (if truthy (some "out.wav") then
            ["音声ファイルが保存されました: " ++ (some "out.wav").getD ""]
         else ["音声の再生が完了しました"])) ∧
    ((text_to_speech (AzureTTS.init "k" "r") "hi" "v" none none none none
        (fun _ => Except.ok ⟨ResultReason.Canceled, ⟨"Error", "quota exceeded"⟩⟩)).retval =
        false ∧
      (text_to_speech (AzureTTS.init "k" "r") "hi" "v" none none none none
        (fun _ => Except.ok ⟨ResultReason.Canceled, ⟨"Error", "quota exceeded"⟩⟩)).printed =
        ["音声合成がキャンセルされました: " ++ "Error"] ++
          (if ("quota exceeded" : String) == "" then []
           else ["エラー詳細: " ++ "quota exceeded"])) :=
  ⟨(text_to_speech_result_mapping (AzureTTS.init "k" "r") "hi" "v" (some "out.wav")
      none none none (fun _ => Except.ok ⟨ResultReason.SynthesizingAudioCompleted, ⟨"", ""⟩⟩)
      ⟨ResultReason.SynthesizingAudioCompleted, ⟨"", ""⟩⟩ rfl).1 rfl,
   (text_to_speech_result_mapping (AzureTTS.init "k" "r") "hi" "v" none none none none
      (fun _ => Except.ok ⟨ResultReason.Canceled, ⟨"Error", "quota exceeded"⟩⟩)
      ⟨ResultReason.Canceled, ⟨"Error", "quota exceeded"⟩⟩ rfl).2 rfl⟩

/-- C10: a prosody parameter supplied as the empty string is treated
exactly as an absent one: when each of rate, pitch, volume is `None`
or the empty string, the plain-text synthesis call is dispatched and
even `_create_ssml` would emit no prosody element. -/
theorem empty_prosody_like_absent (cfg : SpeechConfig) (text voice_name : String)
    (output_file rate pitch volume : Option String)
    (dispatch : SynthCall → Except String SpeechResult)
    (hr : rate = none ∨ rate = some "") (hp : pitch = none ∨ pitch = some "")
    (hv : volume = none ∨ volume = some "") :
    (text_to_speech cfg text voice_name output_file rate pitch volume dispatch).calls =
      [SynthCall.speakText text] ∧
    create_ssml text voice_name rate pitch volume =
      "<speak version=\"1.0\" xmlns=\"http://www.w3.org/2001/10/synthesis\" xml:lang=\"ja-JP\">\n    <voice name=\""
        ++ voice_name ++ "\">\n        " ++ text ++ "\n    </voice>\n</speak>" := by
  have hc := text_to_speech_calls_eq cfg text voice_name output_file rate pitch volume dispatch
  rcases hr with hr | hr <;> rcases hp with hp | hp <;> rcases hv with hv | hv <;>
    subst hr <;> subst hp <;> subst hv <;>
    exact ⟨by rw [hc]; rfl, by rfl⟩

/-- Witness for C10 at rate = Some "", pitch = None, volume = Some "". -/
theorem empty_prosody_like_absent_witness :
    (text_to_speech (AzureTTS.init "k" "r") "hi" "v1" none (some "") none (some "")
        (fun _ => Except.error "offline")).calls = [SynthCall.speakText "hi"] ∧
    create_ssml "hi" "v1" (some "") none (some "") =
      "<speak version=\"1.0\" xmlns=\"http://www.w3.org/2001/10/synthesis\" xml:lang=\"ja-JP\">\n    <voice name=\""
        ++ "v1" ++ "\">\n        " ++ "hi" ++ "\n    </voice>\n</speak>" :=
  empty_prosody_like_absent (AzureTTS.init "k" "r") "hi" "v1" none (some "") none (some "")
    (fun _ => Except.error "offline") (Or.inr rfl) (Or.inl rfl) (Or.inr rfl)

/-- C6 counterexample: the claim names the environment variables
`SPEECH_KEY` and `SPEECH_REGION`, but `main` reads `AZURE_SPEECH_KEY`
(line 152): in an environment where `SPEECH_KEY` holds the credential
and `AZURE_SPEECH_KEY` is unset, `main` nevertheless prints the
guidance message and returns early with no client constructed and no
synthesis call — so the credential is not read from `SPEECH_KEY`. -/
theorem main_ignores_SPEECH_KEY :
    envSpeechKeyOnly "SPEECH_KEY" = some "secret" ∧
    main envSpeechKeyOnly =
      { printed := ["AZURE_SPEECH_KEY環境変数を設定してください"]
      , client := none
      , synthesis_calls := 0 } := by
  constructor <;> rfl

/-- C6 amended: the entry point reads the credential from
`AZURE_SPEECH_KEY` (required) and the region from
`AZURE_SPEECH_REGION` with default "japaneast"; when the key is
missing (falsy), it prints a message and returns early without
constructing the client or performing any synthesis call, and without
crashing (`main` is total); otherwise it builds the client from the
key and region and performs the three example synthesis calls. -/
theorem main_env_handling (env : String → Option String) :
    (truthy (env "AZURE_SPEECH_KEY") = false →
      main env =
        { printed := ["AZURE_SPEECH_KEY環境変数を設定してください"]
        , client := none
        , synthesis_calls := 0 }) ∧
    (truthy (env "AZURE_SPEECH_KEY") = true →
      (main env).client =
        some ((env "AZURE_SPEECH_KEY").getD "",
          (env "AZURE_SPEECH_REGION").getD "japaneast") ∧
      (main env).synthesis_calls = 3) := by
  constructor
  · intro h
    simp [main, h]
  · intro h
    constructor <;> simp [main, h]

/-- Witness for C6 amended: the empty environment triggers the early
return, and an environment holding only `AZURE_SPEECH_KEY` builds the
client with the default region "japaneast". -/
theorem main_env_handling_witness :
    main envEmpty =
      { printed := ["AZURE_SPEECH_KEY環境変数を設定してください"]
      , client := none
      , synthesis_calls := 0 } ∧
    ((main envAzureKeyOnly).client =
        some ((envAzureKeyOnly "AZURE_SPEECH_KEY").getD "",
          (envAzureKeyOnly "AZURE_SPEECH_REGION").getD "japaneast") ∧
      (main envAzureKeyOnly).synthesis_calls = 3) :=
  ⟨(main_env_handling envEmpty).1 rfl,
   (main_env_handling envAzureKeyOnly).2 rfl⟩

end AzureTTSTest
